import Mathlib

/-!
Shallow embedding of `apps/knowledge-base/knowledge_bridge.py`.

The bridge script exposes three operations (search, stats, health) over an
external processor object (`FSHDPDFProcessor`, an external collaborator whose
methods may raise).  We model Python/JSON values with the inductive `JVal`,
fallible Python calls with `Except String` (the `String` is the exception's
textual description, i.e. Python `str(e)`), and the whole `main` entry point
as a pure function from the parsed arguments, the processor constructor
outcome and the stdin-parse outcome to a process `Outcome` recording what was
written to standard output and how the process exited.
-/

set_option autoImplicit false

/-- A JSON-serializable Python value: `None`, booleans, numbers, strings,
lists and dicts (modelled as association lists with distinct keys, as
produced by `json.load`). -/
inductive JVal where
  | null
  | bool (b : Bool)
  | num (n : Int)
  | str (s : String)
  | arr (xs : List JVal)
  | obj (fields : List (String × JVal))

/-- First-match association lookup, the semantics of `d[k]` / `d.get(k)` on a
Python dict with distinct keys. -/
def lookupField : List (String × JVal) → String → Option JVal
  | [], _ => none
  | (k, v) :: rest, key => if k = key then some v else lookupField rest key

/-- Field access on a JSON object; `none` on non-objects or missing keys. -/
def getField (v : JVal) (key : String) : Option JVal :=
  match v with
  | .obj fields => lookupField fields key
  | _ => none

/-- Python `v == s` for a string literal `s`: true only when `v` is an equal
string (Python equality across types is `False`). -/
def JVal.isStrEq : JVal → String → Bool
  | .str s, t => s == t
  | _, _ => false

/-- Whether the value is a Python dict (the only JSON value with `.get`). -/
def JVal.isObj : JVal → Bool
  | .obj _ => true
  | _ => false

/-- Python type name of the value, as it appears in error messages. -/
def pyTypeName : JVal → String
  | .null => ("NoneType")
  | .bool _ => ("bool")
  | .num _ => ("int")
  | .str _ => ("str")
  | .arr _ => ("list")
  | .obj _ => ("dict")

mutual

/-- Python `repr()` of a JSON value (`\x27` is the single-quote character). -/
def pyRepr : JVal → String
  | .null => ("None")
  | .bool true => ("True")
  | .bool false => ("False")
  | .num n => toString n
  | .str s => ("\x27") ++ s ++ ("\x27")
  | .arr xs => ("[") ++ pyReprList xs ++ ("]")
  | .obj fs => ("\x7b") ++ pyReprFields fs ++ ("\x7d")

/-- Comma-separated `repr`s of list elements. -/
def pyReprList : List JVal → String
  | [] => ("")
  | [x] => pyRepr x
  | x :: y :: rest => pyRepr x ++ (", ") ++ pyReprList (y :: rest)

/-- Comma-separated `repr`s of dict entries. -/
def pyReprFields : List (String × JVal) → String
  | [] => ("")
  | [(k, v)] => ("\x27") ++ k ++ ("\x27: ") ++ pyRepr v
  | (k, v) :: f :: rest =>
      ("\x27") ++ k ++ ("\x27: ") ++ pyRepr v ++ (", ") ++ pyReprFields (f :: rest)

end

/-- Python `str()` of a JSON value, as interpolated by an f-string. -/
def pyStr : JVal → String
  | .str s => s
  | v => pyRepr v

/-- Textual description of the `AttributeError` raised by `v.get(...)` on a
non-dict value. -/
def attrErrorMsg (v : JVal) : String :=
  ("\x27") ++ pyTypeName v ++ ("\x27 object has no attribute \x27get\x27")

/-- The column-oriented structure returned by the backend similarity search
(`search_fshd_knowledge`): parallel keys `ids`, `documents`, `metadatas`,
`distances`, each a list of per-query lists.  `none` models an absent key;
`some []` models a present falsy value (`[]` or `None`), which the script
treats identically everywhere. -/
structure BackendResult where
  ids : Option (List (List JVal))
  documents : Option (List (List JVal))
  metadatas : Option (List (List JVal))
  distances : Option (List (List JVal))

/-- Python list indexing `xs[i]`: `IndexError` when out of range. -/
def listAt (xs : List JVal) (i : Nat) : Except String JVal :=
  match xs[i]? with
  | some v => .ok v
  | none => .error ("list index out of range")

/-- The id of result item `i`:
`results["ids"][0][i] if results["ids"] else f"result_{i}"`.
An absent `ids` key raises `KeyError` (its description is the repr of the
key); a falsy value yields the synthesized placeholder. -/
def getIdAt (ids : Option (List (List JVal))) (i : Nat) : Except String JVal :=
  match ids with
  | none => .error ("\x27ids\x27")
  | some [] => .ok (.str (("result_") ++ toString i))
  | some (ids0 :: _) => listAt ids0 i

/-- The metadata of result item `i`:
`results["metadatas"][0][i] if results["metadatas"] else {}`. -/
def getMetaAt (metadatas : Option (List (List JVal))) (i : Nat) : Except String JVal :=
  match metadatas with
  | none => .error ("\x27metadatas\x27")
  | some [] => .ok (.obj [])
  | some (ms0 :: _) => listAt ms0 i

/-- The distance of result item `i`:
`results["distances"][0][i] if results.get("distances") else None`.
`dict.get` never raises on an absent key, so both an absent key and a falsy
value yield `None`. -/
def getDistAt (distances : Option (List (List JVal))) (i : Nat) : Except String JVal :=
  match distances with
  | none => .ok .null
  | some [] => .ok .null
  | some (ds0 :: _) => listAt ds0 i

/-- One iteration of the formatting loop: builds the dict literal for result
item `i`, evaluating `id`, `content`, `metadata`, `distance` in source order
(the first raised exception propagates). -/
def buildItem (r : BackendResult) (d0 : List JVal) (i : Nat) : Except String JVal :=
  match getIdAt r.ids i with
  | .error e => .error e
  | .ok idv =>
    match listAt d0 i with
    | .error e => .error e
    | .ok content =>
      match getMetaAt r.metadatas i with
      | .error e => .error e
      | .ok mv =>
        match getDistAt r.distances i with
        | .error e => .error e
        | .ok dv =>
          .ok (.obj [(("id"), idv), (("content"), content),
                     (("metadata"), mv), (("distance"), dv)])

/-- Sequential execution of the formatting loop over the given indices,
collecting the items and propagating the first exception. -/
def buildItemsAux (r : BackendResult) (d0 : List JVal) : List Nat → Except String (List JVal)
  | [] => .ok []
  | i :: rest =>
    match buildItem r d0 i with
    | .error e => .error e
    | .ok item =>
      match buildItemsAux r d0 rest with
      | .error e => .error e
      | .ok tail => .ok (item :: tail)

/-- The loop `if results["documents"] and len(results["documents"][0]) > 0:
for i in range(len(results["documents"][0])): ...` (the `documents` key is
already known present here). -/
def buildItems (r : BackendResult) (docs : List (List JVal)) : Except String (List JVal) :=
  match docs with
  | [] => .ok []
  | d0 :: _ =>
    if 0 < d0.length then buildItemsAux r d0 (List.range d0.length) else .ok []

/-- `len(results["documents"][0]) if results["documents"] else 0` once the
`documents` key is known present (a truthy value is a non-empty list, so the
`[0]` access cannot fail). -/
def docsLen (docs : List (List JVal)) : Nat :=
  match docs with
  | [] => 0
  | d0 :: _ => d0.length

/-- Length of the first documents sequence of a backend result when that
sequence is present, else 0. -/
def docsFirstLen (r : BackendResult) : Nat :=
  match r.documents with
  | some (d0 :: _) => d0.length
  | _ => 0

/-- The body of `KnowledgeBridge.search`'s `try` block after the backend call
returned `r`: builds the success envelope, or raises (`KeyError` on an absent
`documents`/`ids`/`metadatas` key, `IndexError` on ragged inner lists). -/
def formatSearch (question : JVal) (r : BackendResult) : Except String JVal :=
  match r.documents with
  | none => .error ("\x27documents\x27")
  | some docs =>
    match buildItems r docs with
    | .error e => .error e
    | .ok items =>
      .ok (.obj [(("success"), .bool true), (("question"), question),
                 (("total_results"), .num (docsLen docs)),
                 (("results"), .arr items)])

/-- Handle to the active ChromaDB collection (`processor.collection`); its
`count()` call may raise. -/
structure CollectionHandle where
  count : Except String Int

/-- The external backend processor: its three operations as used by the
bridge, each fallible.  `search_fshd_knowledge` takes the keyword arguments
`question`, `n_results`, `language_filter` (arbitrary values in document
mode, since the script forwards whatever the JSON held). -/
structure FSHDPDFProcessor where
  search_fshd_knowledge : JVal → JVal → JVal → Except String BackendResult
  get_collection_stats : Except String JVal
  collection : CollectionHandle

/-- The bridge service: holds the processor handle, as `self.processor`. -/
structure KnowledgeBridge where
  processor : FSHDPDFProcessor

/-- `KnowledgeBridge.__init__`: constructing the bridge constructs the
processor; an exception from `FSHDPDFProcessor()` propagates (nothing in
`__init__` or `main` catches it). -/
def KnowledgeBridge.init (ctor : Except String FSHDPDFProcessor) : Except String KnowledgeBridge :=
  match ctor with
  | .ok proc => .ok ⟨proc⟩
  | .error e => .error e

/-- The whole `try` block of `KnowledgeBridge.search`: backend call, then
result formatting. -/
def searchAttempt (b : KnowledgeBridge) (question n_results language_filter : JVal) :
    Except String JVal :=
  match b.processor.search_fshd_knowledge question n_results language_filter with
  | .error e => .error e
  | .ok r => formatSearch question r

/-- `KnowledgeBridge.search`: any exception from the `try` block is converted
into the failure envelope echoing the question. -/
def KnowledgeBridge.search (b : KnowledgeBridge) (question n_results language_filter : JVal) :
    JVal :=
  match searchAttempt b question n_results language_filter with
  | .ok env => env
  | .error e =>
    .obj [(("success"), .bool false), (("error"), .str e), (("question"), question)]

/-- `KnowledgeBridge.stats`: wraps `get_collection_stats()` unmodified, or
converts its exception into a failure envelope. -/
def KnowledgeBridge.stats (b : KnowledgeBridge) : JVal :=
  match b.processor.get_collection_stats with
  | .ok s => .obj [(("success"), .bool true), (("stats"), s)]
  | .error e => .obj [(("success"), .bool false), (("error"), .str e)]

/-- `KnowledgeBridge.health`: `collection.count()` success yields the healthy
envelope with the fixed collection identifier; an exception yields the
unhealthy envelope. -/
def KnowledgeBridge.health (b : KnowledgeBridge) : JVal :=
  match b.processor.collection.count with
  | .ok c =>
    .obj [(("success"), .bool true), (("status"), .str ("healthy")),
          (("collection"), .str ("fshd_knowledge_base")), (("total_chunks"), .num c)]
  | .error e =>
    .obj [(("success"), .bool false), (("status"), .str ("unhealthy")),
          (("error"), .str e)]

/-- The subcommand recognized by the argument parser. -/
inductive Cmd where
  | search
  | stats
  | health
deriving DecidableEq

/-- The parsed command-line arguments (`args` after `parser.parse_args()`):
`command` is the chosen subcommand (or `none` when no subcommand was given),
`question` is required by argparse when the subcommand is `search`,
`n_results` defaults to 3, `language` to `None`, and `stdin` is the global
`--stdin` flag. -/
structure Args where
  command : Option Cmd
  question : String
  n_results : Int
  language : Option String
  stdin : Bool

/-- One item written to an output stream: a serialized JSON document
(`print(json.dumps(result, ...))`) or the argparse usage text
(`parser.print_help()`). -/
inductive OutItem where
  | jsonDoc (v : JVal)
  | helpText

/-- How the process ended: a normal exit with the given status, or an
uncaught exception (CPython prints a traceback to standard error and exits
with status 1). -/
inductive ExitKind where
  | normal (code : Nat)
  | crashed (msg : String)
deriving DecidableEq

/-- The observable outcome of one process invocation: the ordered items
written to standard output, and the exit kind. -/
structure Outcome where
  stdout : List OutItem
  exit : ExitKind

/-- The process exit status: 1 on an uncaught exception. -/
def Outcome.exitCode (o : Outcome) : Nat :=
  match o.exit with
  | .normal c => c
  | .crashed _ => 1

/-- Printing the final envelope and falling off `main`: one JSON document on
standard output, exit status 0. -/
def emitEnvelope (v : JVal) : Outcome :=
  { stdout := [.jsonDoc v], exit := .normal 0 }

/-- An uncaught exception: nothing on standard output, abnormal exit. -/
def crashOut (msg : String) : Outcome :=
  { stdout := [], exit := .crashed msg }

/-- `parser.print_help(); sys.exit(1)`: argparse `print_help` writes to
`sys.stdout` when no file is given, so the usage text lands on standard
output, then the process exits with status 1 and no JSON envelope. -/
def helpOut : Outcome :=
  { stdout := [.helpText], exit := .normal 1 }

/-- `None` for an absent optional string argument. -/
def optJ : Option String → JVal
  | none => .null
  | some s => .str s

/-- Document-mode dispatch on the parsed stdin value (`input_data`):
`input_data.get('command', 'search')`, then the `if/elif` chain; a non-dict
value raises `AttributeError` at `.get`, which nothing catches. -/
def runStdinDoc (bridge : KnowledgeBridge) (v : JVal) : Outcome :=
  match v with
  | .obj fields =>
    let command := (lookupField fields ("command")).getD (.str ("search"))
    if command.isStrEq ("search") then
      emitEnvelope (bridge.search
        ((lookupField fields ("question")).getD (.str ("")))
        ((lookupField fields ("n_results")).getD (.num 3))
        ((lookupField fields ("language")).getD .null))
    else if command.isStrEq ("stats") then
      emitEnvelope bridge.stats
    else if command.isStrEq ("health") then
      emitEnvelope bridge.health
    else
      emitEnvelope (.obj [(("success"), .bool false),
                          (("error"), .str (("未知命令: ") ++ pyStr command))])
  | _ => crashOut (attrErrorMsg v)

/-- The `main` entry point after argument parsing.  Inputs: the outcome of
`FSHDPDFProcessor()` construction (`ctor`), the parsed arguments, and the
outcome of `json.load(sys.stdin)` (`stdinDoc`, consulted only under
`--stdin`; `.error` is a `json.JSONDecodeError` with the given description).
`bridge = KnowledgeBridge()` runs before any dispatch, so a constructor
exception escapes `main` uncaught. -/
def runMain (ctor : Except String FSHDPDFProcessor) (args : Args)
    (stdinDoc : Except String JVal) : Outcome :=
  match KnowledgeBridge.init ctor with
  | .error e => crashOut e
  | .ok bridge =>
    if args.stdin then
      match stdinDoc with
      | .error e =>
        emitEnvelope (.obj [(("success"), .bool false),
                            (("error"), .str (("JSON解析错误: ") ++ e))])
      | .ok v => runStdinDoc bridge v
    else
      match args.command with
      | some .search =>
        emitEnvelope (bridge.search (.str args.question) (.num args.n_results)
          (optJ args.language))
      | some .stats => emitEnvelope bridge.stats
      | some .health => emitEnvelope bridge.health
      | none => helpOut

/-- The stdin parse outcomes that document mode handles without an uncaught
exception: a decode error, or a parsed dict. -/
def stdinHandled : Except String JVal → Prop
  | .error _ => True
  | .ok v => v.isObj = true

/-- Modelled from the spec: the backend collaborator `FSHDPDFProcessor`
(its module `fshd_pdf_processor` is not under src/) performs a similarity
search "returning the k most relevant document chunks", so the first
documents sequence it returns holds at most the requested number of
entries. -/
def honorsResultCount (r : BackendResult) (k : Nat) : Prop :=
  ∀ d0 rest, r.documents = some (d0 :: rest) → d0.length ≤ k

/-- Each successful loop run yields one item per index, each built by
`buildItem` at that index. -/
theorem buildItemsAux_spec (r : BackendResult) (d0 : List JVal) :
    ∀ (is : List Nat) (ys : List JVal), buildItemsAux r d0 is = .ok ys →
      ys.length = is.length ∧
      ∀ j (h1 : j < is.length) (h2 : j < ys.length),
        buildItem r d0 (is.get ⟨j, h1⟩) = .ok (ys.get ⟨j, h2⟩) := by
  intro is
  induction is with
  | nil =>
    intro ys h
    simp only [buildItemsAux] at h
    injection h with h
    subst h
    exact ⟨rfl, fun j h1 _ => absurd h1 (Nat.not_lt_zero j)⟩
  | cons i rest ih =>
    intro ys h
    simp only [buildItemsAux] at h
    cases hb : buildItem r d0 i with
    | error e => rw [hb] at h; cases h
    | ok item =>
      rw [hb] at h
      cases ht : buildItemsAux r d0 rest with
      | error e => rw [ht] at h; cases h
      | ok tail =>
        rw [ht] at h
        injection h with h
        subst h
        obtain ⟨hlen, hget⟩ := ih tail ht
        refine ⟨by simp [hlen], ?_⟩
        intro j h1 h2
        cases j with
        | zero => exact hb
        | succ j =>
          exact hget j (Nat.lt_of_succ_lt_succ h1) (Nat.lt_of_succ_lt_succ h2)

/-- A successful formatting loop yields exactly `docsLen docs` items, the
`j`-th built by `buildItem` at index `j` over the first documents list. -/
theorem buildItems_spec (r : BackendResult) (docs : List (List JVal)) (ys : List JVal)
    (h : buildItems r docs = .ok ys) :
    ys.length = docsLen docs ∧
    ∀ d0 rest, docs = d0 :: rest → ∀ j (hj : j < ys.length),
      buildItem r d0 j = .ok (ys.get ⟨j, hj⟩) := by
  cases docs with
  | nil =>
    simp only [buildItems] at h
    injection h with h
    subst h
    exact ⟨rfl, fun d0 rest hd => by cases hd⟩
  | cons d0 rest =>
    simp only [buildItems] at h
    by_cases hlen : 0 < d0.length
    · rw [if_pos hlen] at h
      obtain ⟨h1, h2⟩ := buildItemsAux_spec r d0 (List.range d0.length) ys h
      refine ⟨by simpa using h1, ?_⟩
      intro e0 er hd j hj
      injection hd with hd0 _
      subst hd0
      have hr : j < (List.range d0.length).length := by
        rw [List.length_range]
        have := h1
        rw [List.length_range] at this
        omega
      have := h2 j hr hj
      rwa [List.get_range] at this
    · rw [if_neg hlen] at h
      injection h with h
      subst h
      have hz : d0.length = 0 := Nat.eq_zero_of_not_pos hlen
      exact ⟨by simp [docsLen, hz], fun e0 er hd j hj => absurd hj (by simp)⟩

/-- Inversion of a successful `formatSearch`: the `documents` key was
present, the loop succeeded, and the envelope has exactly the four fields
built by the script. -/
theorem formatSearch_ok_inv (q : JVal) (r : BackendResult) (env : JVal)
    (h : formatSearch q r = .ok env) :
    ∃ docs items, r.documents = some docs ∧ buildItems r docs = .ok items ∧
      env = .obj [(("success"), .bool true), (("question"), q),
                  (("total_results"), .num (docsLen docs)),
                  (("results"), .arr items)] := by
  unfold formatSearch at h
  cases hd : r.documents with
  | none => rw [hd] at h; cases h
  | some docs =>
    rw [hd] at h
    dsimp only at h
    cases hb : buildItems r docs with
    | error e => rw [hb] at h; cases h
    | ok items =>
      rw [hb] at h
      dsimp only at h
      injection h with h
      exact ⟨docs, items, rfl, hb, h.symm⟩

/-- Inversion of a successful `buildItem`: all four field computations
succeeded and the item is the corresponding four-field dict. -/
theorem buildItem_ok_inv (r : BackendResult) (d0 : List JVal) (i : Nat) (item : JVal)
    (h : buildItem r d0 i = .ok item) :
    ∃ idv content mv dv,
      getIdAt r.ids i = .ok idv ∧ listAt d0 i = .ok content ∧
      getMetaAt r.metadatas i = .ok mv ∧ getDistAt r.distances i = .ok dv ∧
      item = .obj [(("id"), idv), (("content"), content),
                   (("metadata"), mv), (("distance"), dv)] := by
  unfold buildItem at h
  cases h1 : getIdAt r.ids i with
  | error e => rw [h1] at h; cases h
  | ok idv =>
    rw [h1] at h
    cases h2 : listAt d0 i with
    | error e => rw [h2] at h; cases h
    | ok content =>
      rw [h2] at h
      cases h3 : getMetaAt r.metadatas i with
      | error e => rw [h3] at h; cases h
      | ok mv =>
        rw [h3] at h
        cases h4 : getDistAt r.distances i with
        | error e => rw [h4] at h; cases h
        | ok dv =>
          rw [h4] at h
          injection h with h
          exact ⟨idv, content, mv, dv, rfl, rfl, rfl, rfl, h.symm⟩

/-- A search response whose `success` field is `true` came from a successful
backend call followed by a successful formatting. -/
theorem search_success_inv (b : KnowledgeBridge) (q n l env : JVal)
    (hs : b.search q n l = env)
    (hsucc : getField env ("success") = some (.bool true)) :
    ∃ r, b.processor.search_fshd_knowledge q n l = .ok r ∧ formatSearch q r = .ok env := by
  unfold KnowledgeBridge.search at hs
  cases ha : searchAttempt b q n l with
  | ok env' =>
    rw [ha] at hs
    unfold searchAttempt at ha
    cases hc : b.processor.search_fshd_knowledge q n l with
    | error e => rw [hc] at ha; cases ha
    | ok r =>
      rw [hc] at ha
      exact ⟨r, rfl, hs ▸ ha⟩
  | error e =>
    rw [ha] at hs
    rw [← hs] at hsucc
    simp [getField, lookupField] at hsucc

/-- Successful list indexing returns the element at that index. -/
theorem listAt_ok (xs : List JVal) (i : Nat) (v : JVal) (h : listAt xs i = .ok v) :
    xs[i]? = some v := by
  unfold listAt at h
  cases hx : xs[i]? with
  | some w => rw [hx] at h; injection h with h; rw [h]
  | none => rw [hx] at h; cases h

/-- A successfully computed id is either the backend id at that index or the
synthesized placeholder (used exactly when the `ids` value is falsy). -/
theorem getIdAt_ok_cases (ids : Option (List (List JVal))) (i : Nat) (idv : JVal)
    (h : getIdAt ids i = .ok idv) :
    (∃ ids0 rest, ids = some (ids0 :: rest) ∧ ids0[i]? = some idv) ∨
    (ids = some [] ∧ idv = .str (("result_") ++ toString i)) := by
  cases ids with
  | none => cases h
  | some idss =>
    cases idss with
    | nil =>
      simp only [getIdAt] at h
      injection h with h
      exact Or.inr ⟨rfl, h.symm⟩
    | cons ids0 rest => exact Or.inl ⟨ids0, rest, rfl, listAt_ok ids0 i idv h⟩

/-- A successfully computed metadata entry is either the backend entry at
that index or the empty dict (used exactly when `metadatas` is falsy). -/
theorem getMetaAt_ok_cases (ms : Option (List (List JVal))) (i : Nat) (mv : JVal)
    (h : getMetaAt ms i = .ok mv) :
    (∃ ms0 rest, ms = some (ms0 :: rest) ∧ ms0[i]? = some mv) ∨
    (ms = some [] ∧ mv = .obj []) := by
  cases ms with
  | none => cases h
  | some mss =>
    cases mss with
    | nil =>
      simp only [getMetaAt] at h
      injection h with h
      exact Or.inr ⟨rfl, h.symm⟩
    | cons ms0 rest => exact Or.inl ⟨ms0, rest, rfl, listAt_ok ms0 i mv h⟩

/-- A successfully computed distance is `null` when `distances` is absent or
falsy, and positional otherwise. -/
theorem getDistAt_ok_cases (ds : Option (List (List JVal))) (i : Nat) (dv : JVal)
    (h : getDistAt ds i = .ok dv) :
    ((ds = none ∨ ds = some []) ∧ dv = .null) ∨
    (∃ ds0 rest, ds = some (ds0 :: rest) ∧ ds0[i]? = some dv) := by
  cases ds with
  | none =>
    simp only [getDistAt] at h
    injection h with h
    exact Or.inl ⟨Or.inl rfl, h.symm⟩
  | some dss =>
    cases dss with
    | nil =>
      simp only [getDistAt] at h
      injection h with h
      exact Or.inl ⟨Or.inr rfl, h.symm⟩
    | cons ds0 rest => exact Or.inr ⟨ds0, rest, rfl, listAt_ok ds0 i dv h⟩

/-- Per-item id/metadata property of a successful search response over the
backend result `r`: every item carries an `id` field (the backend id at its
index, or the `result_<index>` placeholder exactly when the backend supplied
no ids) and a `metadata` field (the backend entry at its index, or the empty
dict exactly when the backend supplied no metadata). -/
def idMetaSpec (r : BackendResult) (items : List JVal) : Prop :=
  ∀ j (hj : j < items.length),
    (∃ idv, getField (items.get ⟨j, hj⟩) ("id") = some idv ∧
      ((∃ ids0 rest, r.ids = some (ids0 :: rest) ∧ ids0[j]? = some idv) ∨
       (r.ids = some [] ∧ idv = .str (("result_") ++ toString j)))) ∧
    (∃ mv, getField (items.get ⟨j, hj⟩) ("metadata") = some mv ∧
      ((∃ ms0 rest, r.metadatas = some (ms0 :: rest) ∧ ms0[j]? = some mv) ∨
       (r.metadatas = some [] ∧ mv = .obj [])))

/-- Per-item distance property of a successful search response over the
backend result `r`: when the backend carried no distances the `distance`
field is present and explicitly null for every item, and when a distances
sequence is present the field holds the value at the item's index. -/
def distanceSpec (r : BackendResult) (items : List JVal) : Prop :=
  ∀ j (hj : j < items.length),
    (r.distances = none → getField (items.get ⟨j, hj⟩) ("distance") = some .null) ∧
    (r.distances = some [] → getField (items.get ⟨j, hj⟩) ("distance") = some .null) ∧
    (∀ ds0 rest, r.distances = some (ds0 :: rest) →
      ∃ dv, ds0[j]? = some dv ∧ getField (items.get ⟨j, hj⟩) ("distance") = some dv)

/-- C2: every successful search response's items each carry an `id` field
(the backend-supplied id at that index, or the synthesized `result_<index>`
placeholder — 0-based — exactly when the backend supplied no id entries) and
a `metadata` field (backend-supplied, or the empty mapping when the backend
supplied no metadata entries). -/
theorem C2_items_id_metadata (q : JVal) (r : BackendResult) (env : JVal)
    (h : formatSearch q r = .ok env) :
    ∃ items, getField env ("results") = some (.arr items) ∧ idMetaSpec r items := by
  obtain ⟨docs, items, hd, hb, henv⟩ := formatSearch_ok_inv q r env h
  refine ⟨items, by simp [henv, getField, lookupField], ?_⟩
  obtain ⟨hlen, hget⟩ := buildItems_spec r docs items hb
  intro j hj
  cases docs with
  | nil =>
    rw [hlen] at hj
    exact absurd hj (by simp [docsLen])
  | cons d0 rest =>
    have hitem := hget d0 rest rfl j hj
    obtain ⟨idv, content, mv, dv, h1, h2, h3, h4, hitem_eq⟩ :=
      buildItem_ok_inv r d0 j _ hitem
    rw [List.get_eq_getElem] at hitem_eq
    constructor
    · exact ⟨idv, by simp [hitem_eq, getField, lookupField], getIdAt_ok_cases r.ids j idv h1⟩
    · exact ⟨mv, by simp [hitem_eq, getField, lookupField], getMetaAt_ok_cases r.metadatas j mv h3⟩

/-- C7: in every successful search response, when the backend result carries
no distances sequence every item's `distance` field is present and explicitly
null, and when a distances sequence is present each item's `distance` is the
value at that item's index. -/
theorem C7_distance_field (q : JVal) (r : BackendResult) (env : JVal)
    (h : formatSearch q r = .ok env) :
    ∃ items, getField env ("results") = some (.arr items) ∧ distanceSpec r items := by
  obtain ⟨docs, items, hd, hb, henv⟩ := formatSearch_ok_inv q r env h
  refine ⟨items, by simp [henv, getField, lookupField], ?_⟩
  obtain ⟨hlen, hget⟩ := buildItems_spec r docs items hb
  intro j hj
  cases docs with
  | nil =>
    rw [hlen] at hj
    exact absurd hj (by simp [docsLen])
  | cons d0 rest =>
    have hitem := hget d0 rest rfl j hj
    obtain ⟨idv, content, mv, dv, h1, h2, h3, h4, hitem_eq⟩ :=
      buildItem_ok_inv r d0 j _ hitem
    rw [List.get_eq_getElem] at hitem_eq
    have hcases := getDistAt_ok_cases r.distances j dv h4
    refine ⟨?_, ?_, ?_⟩
    · intro hds
      rcases hcases with ⟨_, hnull⟩ | ⟨ds0, dsr, hds', _⟩
      · simp [hitem_eq, getField, lookupField, hnull]
      · rw [hds] at hds'; cases hds'
    · intro hds
      rcases hcases with ⟨_, hnull⟩ | ⟨ds0, dsr, hds', _⟩
      · simp [hitem_eq, getField, lookupField, hnull]
      · rw [hds] at hds'; cases hds'
    · intro ds0 dsr hds
      rcases hcases with ⟨hne, _⟩ | ⟨ds0', dsr', hds', hpos⟩
      · rcases hne with hne | hne <;> rw [hds] at hne <;> cases hne
      · rw [hds] at hds'
        injection hds' with hds'
        injection hds' with hh ht
        subst hh
        exact ⟨dv, hpos, by simp [hitem_eq, getField, lookupField]⟩

/-- C3: for every search invocation yielding a success envelope, against a
backend honoring the requested result count, `total_results` equals the
length of the first documents sequence when present (else 0), equals the
length of `results`, and `results` never exceeds the requested count. -/
theorem C3_total_results_bound (b : KnowledgeBridge) (q l env : JVal) (k : Nat)
    (hs : b.search q (.num k) l = env)
    (hsucc : getField env ("success") = some (.bool true))
    (hk : ∀ r, b.processor.search_fshd_knowledge q (.num k) l = .ok r →
      honorsResultCount r k) :
    ∃ items, getField env ("results") = some (.arr items) ∧
      getField env ("total_results") = some (.num items.length) ∧
      (∀ r, b.processor.search_fshd_knowledge q (.num k) l = .ok r →
        items.length = docsFirstLen r) ∧
      items.length ≤ k := by
  obtain ⟨r, hcall, hfmt⟩ := search_success_inv b q (.num k) l env hs hsucc
  obtain ⟨docs, items, hd, hb, henv⟩ := formatSearch_ok_inv q r env hfmt
  obtain ⟨hlen, _⟩ := buildItems_spec r docs items hb
  refine ⟨items, by simp [henv, getField, lookupField], ?_, ?_, ?_⟩
  · simp [henv, getField, lookupField, hlen]
  · intro r' hcall'
    rw [hcall] at hcall'
    injection hcall' with hr
    subst hr
    rw [hlen]
    unfold docsFirstLen
    rw [hd]
    cases docs with
    | nil => simp [docsLen]
    | cons d0 rest => simp [docsLen]
  · rw [hlen]
    cases docs with
    | nil => simp [docsLen]
    | cons d0 rest => exact hk r hcall d0 rest hd

/-- C5: when the backend call raises, search returns the failure envelope
carrying the exception's textual description and echoing the question; and
any search response that is not a success envelope is exactly such a failure
envelope arising from an exception in the try block — the only failure
path. -/
theorem C5_search_failure_envelope (b : KnowledgeBridge) (q n l : JVal) :
    (∀ e, b.processor.search_fshd_knowledge q n l = .error e →
      b.search q n l =
        .obj [(("success"), .bool false), (("error"), .str e), (("question"), q)]) ∧
    (∀ env, b.search q n l = env →
      getField env ("success") ≠ some (.bool true) →
      ∃ e, searchAttempt b q n l = .error e ∧
        env = .obj [(("success"), .bool false), (("error"), .str e),
                    (("question"), q)]) := by
  constructor
  · intro e he
    unfold KnowledgeBridge.search searchAttempt
    rw [he]
  · intro env hs hnsucc
    cases ha : searchAttempt b q n l with
    | ok env' =>
      unfold KnowledgeBridge.search at hs
      rw [ha] at hs
      dsimp only at hs
      unfold searchAttempt at ha
      cases hc : b.processor.search_fshd_knowledge q n l with
      | error e => rw [hc] at ha; cases ha
      | ok r =>
        rw [hc] at ha
        dsimp only at ha
        obtain ⟨docs, items, hd, hb, henv⟩ := formatSearch_ok_inv q r env' ha
        exfalso
        apply hnsucc
        rw [← hs, henv]
        simp [getField, lookupField]
    | error e =>
      unfold KnowledgeBridge.search at hs
      rw [ha] at hs
      dsimp only at hs
      exact ⟨e, rfl, hs.symm⟩

/-- C8: health yields the healthy envelope with the fixed collection
identifier and the backend count on success, the unhealthy envelope with the
exception's textual description on failure, and no search or stats envelope
(success or failure) carries a `status` field, so health is the only
operation whose failure envelope does. -/
theorem C8_health_envelopes (b : KnowledgeBridge) :
    (∀ c, b.processor.collection.count = .ok c →
      b.health = .obj [(("success"), .bool true), (("status"), .str ("healthy")),
        (("collection"), .str ("fshd_knowledge_base")),
        (("total_chunks"), .num c)]) ∧
    (∀ e, b.processor.collection.count = .error e →
      b.health = .obj [(("success"), .bool false),
        (("status"), .str ("unhealthy")), (("error"), .str e)]) ∧
    (∀ q n l, getField (b.search q n l) ("status") = none) ∧
    (getField b.stats ("status") = none) := by
  refine ⟨?_, ?_, ?_, ?_⟩
  · intro c hc
    unfold KnowledgeBridge.health
    rw [hc]
  · intro e he
    unfold KnowledgeBridge.health
    rw [he]
  · intro q n l
    unfold KnowledgeBridge.search
    cases ha : searchAttempt b q n l with
    | error e => simp [getField, lookupField]
    | ok env =>
      dsimp only
      unfold searchAttempt at ha
      cases hc : b.processor.search_fshd_knowledge q n l with
      | error e => rw [hc] at ha; cases ha
      | ok r =>
        rw [hc] at ha
        dsimp only at ha
        obtain ⟨docs, items, hd, hb, henv⟩ := formatSearch_ok_inv q r env ha
        rw [henv]
        simp [getField, lookupField]
  · unfold KnowledgeBridge.stats
    cases b.processor.get_collection_stats <;> simp [getField, lookupField]

/-- Python `v == s` is false exactly when `v` is not that string. -/
theorem isStrEq_false (v : JVal) (s : String) (hv : v ≠ .str s) :
    v.isStrEq s = false := by
  cases v <;> try rfl
  case str t =>
    simp only [JVal.isStrEq, beq_eq_false_iff_ne]
    intro h
    exact hv (by rw [h])

/-- A backend whose three operations all succeed; its search returns one
hit. -/
def hitResult : BackendResult :=
  { ids := some [[.str ("a")]],
    documents := some [[.str ("doc")]],
    metadatas := some [[.obj []]],
    distances := some [[.num 1]] }

/-- A processor whose three operations all succeed. -/
def okProc : FSHDPDFProcessor :=
  { search_fshd_knowledge := fun _ _ _ => .ok hitResult,
    get_collection_stats := .ok (.obj []),
    collection := { count := .ok 42 } }

/-- A processor whose three operations all raise. -/
def failProc : FSHDPDFProcessor :=
  { search_fshd_knowledge := fun _ _ _ => .error ("backend down"),
    get_collection_stats := .error ("backend down"),
    collection := { count := .error ("backend down") } }

/-- Bridge over the all-succeeding processor. -/
def okBridge : KnowledgeBridge := ⟨okProc⟩

/-- Bridge over the all-raising processor. -/
def failBridge : KnowledgeBridge := ⟨failProc⟩

/-- Flag-mode arguments selecting the `stats` subcommand. -/
def argsFlagStats : Args :=
  { command := some .stats, question := (""), n_results := 3,
    language := none, stdin := false }

/-- Flag-mode arguments with no subcommand. -/
def argsFlagNone : Args :=
  { command := none, question := (""), n_results := 3,
    language := none, stdin := false }

/-- Document-mode arguments (`--stdin`). -/
def argsStdin : Args :=
  { command := none, question := (""), n_results := 3,
    language := none, stdin := true }

/-- The success envelope produced for question `q` over `hitResult`. -/
def hitEnvelope : JVal :=
  .obj [(("success"), .bool true), (("question"), .str ("q")),
        (("total_results"), .num 1),
        (("results"), .arr [.obj [(("id"), .str ("a")),
          (("content"), .str ("doc")), (("metadata"), .obj []),
          (("distance"), .num 1)]])]

/-- C4: in document mode, malformed stdin JSON yields exactly one JSON
document on standard output — the failure envelope whose `error` describes
the parse failure — with exit status zero; the process neither crashes nor
falls through to usage help. -/
theorem C4_doc_mode_parse_error (proc : FSHDPDFProcessor) (args : Args) (e : String)
    (hstdin : args.stdin = true) :
    runMain (.ok proc) args (.error e) =
      emitEnvelope (.obj [(("success"), .bool false),
        (("error"), .str (("JSON解析错误: ") ++ e))]) := by
  unfold runMain KnowledgeBridge.init
  rw [hstdin]
  simp

/-- C9: in document mode, an input mapping whose `command` value is none of
`search`, `stats`, `health` yields the failure envelope whose `error` string
is the unknown-command message followed by the offending command value, with
exit status zero — not a parser-level rejection. -/
theorem C9_unknown_command (proc : FSHDPDFProcessor) (args : Args)
    (fields : List (String × JVal)) (hstdin : args.stdin = true)
    (hsearch : (lookupField fields ("command")).getD (.str ("search")) ≠ .str ("search"))
    (hstats : (lookupField fields ("command")).getD (.str ("search")) ≠ .str ("stats"))
    (hhealth : (lookupField fields ("command")).getD (.str ("search")) ≠ .str ("health")) :
    runMain (.ok proc) args (.ok (.obj fields)) =
      emitEnvelope (.obj [(("success"), .bool false),
        (("error"), .str (("未知命令: ") ++
          pyStr ((lookupField fields ("command")).getD (.str ("search")))))]) := by
  unfold runMain KnowledgeBridge.init runStdinDoc
  rw [hstdin]
  simp only [if_true]
  rw [isStrEq_false _ _ hsearch, isStrEq_false _ _ hstats, isStrEq_false _ _ hhealth]
  simp

/-- C10: in document mode, a valid-JSON stdin whose top-level value is not a
mapping makes the `command`-field read raise an uncaught `AttributeError`:
the process terminates abnormally with non-zero status and nothing on
standard output. -/
theorem C10_nonmapping_crash (proc : FSHDPDFProcessor) (args : Args) (v : JVal)
    (hstdin : args.stdin = true) (hv : v.isObj = false) :
    runMain (.ok proc) args (.ok v) = crashOut (attrErrorMsg v) ∧
    (runMain (.ok proc) args (.ok v)).stdout = [] ∧
    (runMain (.ok proc) args (.ok v)).exitCode ≠ 0 := by
  have h : runMain (.ok proc) args (.ok v) = crashOut (attrErrorMsg v) := by
    unfold runMain KnowledgeBridge.init runStdinDoc
    rw [hstdin]
    cases v <;> simp_all [JVal.isObj]
  refine ⟨h, by rw [h]; rfl, by rw [h]; simp [crashOut, Outcome.exitCode]⟩

/-- C1 counterexample: with the recognized subcommand `stats` (so not the
flag-mode-usage exception), a failure raised while constructing the backend
client handle (`FSHDPDFProcessor()` inside `KnowledgeBridge.__init__`)
escapes `main` uncaught: no JSON envelope reaches standard output and the
process crashes, refuting that such failures are converted into the
envelope. -/
theorem C1_ctor_escape_counterexample :
    (runMain (.error ("could not connect to ChromaDB")) argsFlagStats
      (.ok .null)).stdout = [] ∧
    (runMain (.error ("could not connect to ChromaDB")) argsFlagStats
      (.ok .null)).exit = .crashed ("could not connect to ChromaDB") :=
  ⟨rfl, rfl⟩

/-- C1 (amended): provided the backend client handle constructs
successfully, every invocation except flag mode with no recognized
subcommand and except document mode whose stdin parses to a non-mapping
value writes exactly one JSON envelope to standard output and exits with
status 0 — every backend failure during the three operations is caught at
the operation boundary and converted into the envelope.  Failures while
constructing the handle are not caught and crash the process with no
envelope. -/
theorem C1_one_envelope (proc : FSHDPDFProcessor) (args : Args)
    (doc : Except String JVal)
    (husage : ¬ (args.stdin = false ∧ args.command = none))
    (hdoc : args.stdin = true → stdinHandled doc) :
    ∃ v, runMain (.ok proc) args doc = emitEnvelope v := by
  cases hstdin : args.stdin with
  | false =>
    unfold runMain KnowledgeBridge.init
    rw [hstdin]
    simp only [Bool.false_eq_true, if_false]
    cases hcmd : args.command with
    | none => exact absurd ⟨hstdin, hcmd⟩ husage
    | some c => cases c <;> exact ⟨_, rfl⟩
  | true =>
    have hd := hdoc hstdin
    unfold runMain KnowledgeBridge.init
    rw [hstdin]
    simp only [if_true]
    cases doc with
    | error e => exact ⟨_, rfl⟩
    | ok v =>
      cases v with
      | obj fields =>
        dsimp only
        unfold runStdinDoc
        dsimp only
        split
        · exact ⟨_, rfl⟩
        · split
          · exact ⟨_, rfl⟩
          · split
            · exact ⟨_, rfl⟩
            · exact ⟨_, rfl⟩
      | null => simp [stdinHandled, JVal.isObj] at hd
      | bool b => simp [stdinHandled, JVal.isObj] at hd
      | num n => simp [stdinHandled, JVal.isObj] at hd
      | str s => simp [stdinHandled, JVal.isObj] at hd
      | arr xs => simp [stdinHandled, JVal.isObj] at hd

/-- C6 counterexample: invoked with no subcommand and without `--stdin`, the
usage text is written to standard output (argparse `print_help` writes to
`sys.stdout` when given no file), refuting that diagnostic or usage text
goes only to a non-data channel. -/
theorem C6_usage_on_stdout_counterexample :
    OutItem.helpText ∈ (runMain (.ok okProc) argsFlagNone (.ok .null)).stdout := by
  simp [runMain, KnowledgeBridge.init, argsFlagNone, helpOut]

/-- C6 (amended): flag mode with no recognized subcommand and without
`--stdin` prints the usage text — to standard output, where argparse
`print_help` writes — and exits with status 1, producing no JSON envelope;
the usage text and the JSON envelope remain mutually exclusive. -/
theorem C6_usage_exit (proc : FSHDPDFProcessor) (args : Args)
    (doc : Except String JVal) (hstdin : args.stdin = false)
    (hcmd : args.command = none) :
    runMain (.ok proc) args doc = helpOut ∧
    (∀ v, OutItem.jsonDoc v ∉ (runMain (.ok proc) args doc).stdout) ∧
    (runMain (.ok proc) args doc).exitCode ≠ 0 := by
  have h : runMain (.ok proc) args doc = helpOut := by
    unfold runMain KnowledgeBridge.init
    rw [hstdin, hcmd]
    simp
  refine ⟨h, ?_, by rw [h]; simp [helpOut, Outcome.exitCode]⟩
  intro v
  rw [h]
  simp [helpOut]

/-- Witness for C1 (amended): flag-mode `stats` over a constructed backend
yields exactly one envelope. -/
theorem C1_one_envelope_witness :
    ∃ v, runMain (.ok okProc) argsFlagStats (.ok .null) = emitEnvelope v :=
  C1_one_envelope okProc argsFlagStats (.ok .null)
    (by simp [argsFlagStats])
    (by intro h; simp [argsFlagStats] at h)

/-- Witness for C2 at a concrete one-hit backend result. -/
theorem C2_items_id_metadata_witness :
    ∃ items, getField hitEnvelope ("results") = some (.arr items) ∧
      idMetaSpec hitResult items :=
  C2_items_id_metadata (.str ("q")) hitResult hitEnvelope (by rfl)

/-- Witness for C3 at a concrete one-hit backend result with requested
count 3. -/
theorem C3_total_results_bound_witness :
    ∃ items, getField hitEnvelope ("results") = some (.arr items) ∧
      getField hitEnvelope ("total_results") = some (.num items.length) ∧
      (∀ r, okBridge.processor.search_fshd_knowledge (.str ("q")) (.num 3) .null =
        .ok r → items.length = docsFirstLen r) ∧
      items.length ≤ 3 :=
  C3_total_results_bound okBridge (.str ("q")) .null hitEnvelope 3 (by rfl) (by rfl)
    (by
      intro r hr
      injection hr with hr
      subst hr
      intro d0 rest hd
      injection hd with hd
      injection hd with h1 h2
      subst h1
      decide)

/-- Witness for C4 at a concrete decode-error description. -/
theorem C4_doc_mode_parse_error_witness :
    runMain (.ok okProc) argsStdin
      (.error ("Expecting value: line 1 column 1 (char 0)")) =
    emitEnvelope (.obj [(("success"), .bool false),
      (("error"), .str (("JSON解析错误: ") ++
        ("Expecting value: line 1 column 1 (char 0)")))]) :=
  C4_doc_mode_parse_error okProc argsStdin
    ("Expecting value: line 1 column 1 (char 0)") rfl

/-- Witness for C5 over the all-raising backend. -/
theorem C5_search_failure_envelope_witness :
    failBridge.search (.str ("q")) (.num 3) .null =
      .obj [(("success"), .bool false), (("error"), .str ("backend down")),
            (("question"), .str ("q"))] :=
  (C5_search_failure_envelope failBridge (.str ("q")) (.num 3) .null).1
    ("backend down") rfl

/-- Witness for C6 (amended) at concrete no-subcommand flag arguments. -/
theorem C6_usage_exit_witness :
    runMain (.ok okProc) argsFlagNone (.ok .null) = helpOut ∧
    (∀ v, OutItem.jsonDoc v ∉ (runMain (.ok okProc) argsFlagNone (.ok .null)).stdout) ∧
    (runMain (.ok okProc) argsFlagNone (.ok .null)).exitCode ≠ 0 :=
  C6_usage_exit okProc argsFlagNone (.ok .null) rfl rfl

/-- Witness for C7 at a concrete one-hit backend result. -/
theorem C7_distance_field_witness :
    ∃ items, getField hitEnvelope ("results") = some (.arr items) ∧
      distanceSpec hitResult items :=
  C7_distance_field (.str ("q")) hitResult hitEnvelope (by rfl)

/-- Witness for C8 over the all-raising backend: the unhealthy envelope. -/
theorem C8_health_envelopes_witness :
    failBridge.health = .obj [(("success"), .bool false),
      (("status"), .str ("unhealthy")), (("error"), .str ("backend down"))] :=
  (C8_health_envelopes failBridge).2.1 ("backend down") rfl

/-- Witness for C9 at the concrete input mapping with command `bogus`. -/
theorem C9_unknown_command_witness :
    runMain (.ok okProc) argsStdin (.ok (.obj [(("command"), .str ("bogus"))])) =
      emitEnvelope (.obj [(("success"), .bool false),
        (("error"), .str (("未知命令: ") ++ pyStr (.str ("bogus"))))]) :=
  C9_unknown_command okProc argsStdin [(("command"), .str ("bogus"))] rfl
    (by intro h; injection h with h; exact absurd h (by decide))
    (by intro h; injection h with h; exact absurd h (by decide))
    (by intro h; injection h with h; exact absurd h (by decide))

/-- Witness for C10 at the concrete non-mapping stdin value `[]`. -/
theorem C10_nonmapping_crash_witness :
    runMain (.ok okProc) argsStdin (.ok (.arr [])) =
      crashOut (attrErrorMsg (.arr [])) ∧
    (runMain (.ok okProc) argsStdin (.ok (.arr []))).stdout = [] ∧
    (runMain (.ok okProc) argsStdin (.ok (.arr []))).exitCode ≠ 0 :=
  C10_nonmapping_crash okProc argsStdin (.arr []) rfl rfl
